import Mathlib

/-!
Verification of the evolve-das-upload document-upload adapter.

The repository holds three variants of an Evolve script that uploads a document
to the Digital Advantage Service (DAS):

* src/unnamed/part_000 - the identifier-returning variant: execute parses the
  input file, takes Clients[0].Reservation, uploads, and extracts documentId
  from the response via getDocumentId;
* src/unnamed/part_001 - a void variant: execute passes Clients[0] (a flat
  Client record) to uploadDocument and returns nothing;
* src/src/index.ts - a void variant that parses the raw input text inside
  uploadDocument and reads flat fields (hotelName, reservationNumber).

The embedding models JavaScript values (JValue), the host runtime primitives
the scripts call (JSON.parse, base64 file read, fetch status handling), the
dynamic member-access semantics of the property chains the scripts evaluate,
and each variant as a function from an environment (input file text, document
bytes, endpoint reply) to an event trace plus an Except result.
-/

/-- A JavaScript runtime value as the scripts manipulate it.  jnum is an
integer: every numeric field of the program (ids, guest counts, points,
confirmation numbers, HTTP status codes, document indexes) is integral, and
the JSON number grammar below is restricted accordingly.  jpromise v models a
pending Promise that will resolve to v; it arises in the src/src/index.ts
variant, which omits the await on readDocumentAsBase64. -/
inductive JValue where
  | jnull
  | jbool (b : Bool)
  | jnum (n : Int)
  | jstr (s : String)
  | jarr (elems : List JValue)
  | jobj (fields : List (String × JValue))
  | jpromise (resolved : JValue)

/-- Property lookup in an object's field list.  The payloads this program
builds and parses carry distinct keys, so first-match lookup agrees with the
JavaScript object semantics (where a duplicated literal key would keep the
last occurrence). -/
def jlookup (fields : List (String × JValue)) (key : String) : Option JValue :=
  match fields with
  | [] => none
  | (k, v) :: rest => if k = key then some v else jlookup rest key

mutual
/-- The ECMAScript ToString coercion on the values above, as JSON.parse applies
it to a non-string argument: a plain object renders as the fixed tag string, an
array joins its elements with commas (null rendering as the empty string, per
Array.prototype.join), a Promise renders with its own tag. -/
def jsToString : JValue → String
  | .jnull => "null"
  | .jbool true => "true"
  | .jbool false => "false"
  | .jnum n => toString n
  | .jstr s => s
  | .jarr xs => String.intercalate "," (jsElemStrings xs)
  | .jobj _ => "[object Object]"
  | .jpromise _ => "[object Promise]"

/-- Element renderings for Array.prototype.join: null joins as the empty
string, every other element via jsToString. -/
def jsElemStrings : List JValue → List String
  | [] => []
  | .jnull :: rest => "" :: jsElemStrings rest
  | v :: rest => jsToString v :: jsElemStrings rest
end

/-! ### JSON.parse, embedded

A total recursive-descent parser over the character list, with a fuel bound
for the mutual value/element/field recursion.  It implements the JSON grammar
the adapter's payloads use: null, booleans, integer numbers (no leading
zeros), strings with the standard escapes including \uXXXX, arrays and
objects, with insignificant whitespace.  Fractional and exponent numerals do
not occur in any payload of this program and are outside the grammar. -/

/-- JSON insignificant whitespace. -/
def jsonWs (c : Char) : Bool :=
  c == ' ' || c == '\t' || c == '\n' || c == '\r'

/-- Drop leading insignificant whitespace. -/
def dropWs : List Char → List Char
  | [] => []
  | c :: rest => if jsonWs c then dropWs rest else c :: rest

/-- Value of one hexadecimal digit. -/
def hexDigitVal (c : Char) : Option Nat :=
  if '0' ≤ c ∧ c ≤ '9' then some (c.toNat - 48)
  else if 'a' ≤ c ∧ c ≤ 'f' then some (c.toNat - 87)
  else if 'A' ≤ c ∧ c ≤ 'F' then some (c.toNat - 55)
  else none

/-- Body of a JSON string literal, after the opening quote: collects the
decoded characters up to the closing quote and returns the remainder.
Unescaped control characters and unknown escapes are rejected. -/
def jsonStrBody : List Char → Option (List Char × List Char)
  | [] => none
  | '"' :: rest => some ([], rest)
  | '\\' :: '"' :: rest =>
    match jsonStrBody rest with
    | some (cs, r) => some ('"' :: cs, r)
    | none => none
  | '\\' :: '\\' :: rest =>
    match jsonStrBody rest with
    | some (cs, r) => some ('\\' :: cs, r)
    | none => none
  | '\\' :: '/' :: rest =>
    match jsonStrBody rest with
    | some (cs, r) => some ('/' :: cs, r)
    | none => none
  | '\\' :: 'n' :: rest =>
    match jsonStrBody rest with
    | some (cs, r) => some ('\n' :: cs, r)
    | none => none
  | '\\' :: 't' :: rest =>
    match jsonStrBody rest with
    | some (cs, r) => some ('\t' :: cs, r)
    | none => none
  | '\\' :: 'r' :: rest =>
    match jsonStrBody rest with
    | some (cs, r) => some ('\r' :: cs, r)
    | none => none
  | '\\' :: 'b' :: rest =>
    match jsonStrBody rest with
    | some (cs, r) => some (Char.ofNat 8 :: cs, r)
    | none => none
  | '\\' :: 'f' :: rest =>
    match jsonStrBody rest with
    | some (cs, r) => some (Char.ofNat 12 :: cs, r)
    | none => none
  | '\\' :: 'u' :: h1 :: h2 :: h3 :: h4 :: rest =>
    match hexDigitVal h1, hexDigitVal h2, hexDigitVal h3, hexDigitVal h4 with
    | some a, some b, some c, some d =>
      match jsonStrBody rest with
      | some (cs, r) => some (Char.ofNat (a * 4096 + b * 256 + c * 16 + d) :: cs, r)
      | none => none
    | _, _, _, _ => none
  | '\\' :: _ => none
  | c :: rest =>
    if c.toNat < 32 then none
    else
      match jsonStrBody rest with
      | some (cs, r) => some (c :: cs, r)
      | none => none

/-- Numeric value of a run of decimal digits. -/
def decDigitsVal (ds : List Char) : Nat :=
  ds.foldl (fun acc c => acc * 10 + (c.toNat - 48)) 0

/-- A JSON integer numeral: optional minus, then digits with no leading zero. -/
def jsonNumToken (s : List Char) : Option (JValue × List Char) :=
  let body : Bool × List Char :=
    match s with
    | '-' :: rest => (true, rest)
    | _ => (false, s)
  let ds := body.2.takeWhile fun c => '0' ≤ c && c ≤ '9'
  let rest := body.2.dropWhile fun c => '0' ≤ c && c ≤ '9'
  match ds with
  | [] => none
  | ['0'] => some (.jnum 0, rest)
  | '0' :: _ => none
  | _ =>
    let n : Int := (decDigitsVal ds : Nat)
    some (.jnum (if body.1 then -n else n), rest)

mutual
/-- One JSON value, by recursive descent with fuel. -/
def jsonVal : Nat → List Char → Option (JValue × List Char)
  | 0, _ => none
  | fuel + 1, s =>
    match dropWs s with
    | 'n' :: 'u' :: 'l' :: 'l' :: rest => some (.jnull, rest)
    | 't' :: 'r' :: 'u' :: 'e' :: rest => some (.jbool true, rest)
    | 'f' :: 'a' :: 'l' :: 's' :: 'e' :: rest => some (.jbool false, rest)
    | '"' :: rest =>
      match jsonStrBody rest with
      | some (cs, r) => some (.jstr (String.mk cs), r)
      | none => none
    | '[' :: rest =>
      match dropWs rest with
      | ']' :: r => some (.jarr [], r)
      | s2 =>
        match jsonElems fuel s2 with
        | some (xs, r) => some (.jarr xs, r)
        | none => none
    | '{' :: rest =>
      match dropWs rest with
      | '}' :: r => some (.jobj [], r)
      | s2 =>
        match jsonMembers fuel s2 with
        | some (fs, r) => some (.jobj fs, r)
        | none => none
    | s2 => jsonNumToken s2

/-- One or more comma-separated array elements up to the closing bracket. -/
def jsonElems : Nat → List Char → Option (List JValue × List Char)
  | 0, _ => none
  | fuel + 1, s =>
    match jsonVal fuel s with
    | none => none
    | some (v, r) =>
      match dropWs r with
      | ',' :: r2 =>
        match jsonElems fuel r2 with
        | some (xs, r3) => some (v :: xs, r3)
        | none => none
      | ']' :: r2 => some ([v], r2)
      | _ => none

/-- One or more comma-separated object members up to the closing brace. -/
def jsonMembers : Nat → List Char → Option (List (String × JValue) × List Char)
  | 0, _ => none
  | fuel + 1, s =>
    match dropWs s with
    | '"' :: rest =>
      match jsonStrBody rest with
      | none => none
      | some (kcs, r) =>
        match dropWs r with
        | ':' :: r2 =>
          match jsonVal fuel r2 with
          | none => none
          | some (v, r3) =>
            match dropWs r3 with
            | ',' :: r4 =>
              match jsonMembers fuel r4 with
              | some (fs, r5) => some ((String.mk kcs, v) :: fs, r5)
              | none => none
            | '}' :: r4 => some ([(String.mk kcs, v)], r4)
            | _ => none
        | _ => none
    | _ => none
end

/-- JSON.parse: parse one value and require only whitespace after it.  The
fuel 2 * length + 2 dominates the recursion depth, since every recursive call
follows the consumption of at least one input character. -/
def jsonParse (s : String) : Option JValue :=
  match jsonVal (2 * s.length + 2) s.toList with
  | some (v, rest) => if dropWs rest = [] then some v else none
  | none => none

/-! ### Base64, embedded

The host's readAsBase64 capability: standard RFC 4648 base64 of the byte
list, used to model context.getFile(documentPath).readAsBase64(). -/

/-- The base64 digit for a 6-bit value. -/
def base64Digit (n : Nat) : Char :=
  "ABCDEFGHIJKLMNOPQRSTUVWXYZabcdefghijklmnopqrstuvwxyz0123456789+/".toList.getD n '='

/-- RFC 4648 base64 of a byte sequence (each byte given as a Nat below 256). -/
def base64Encode : List Nat → String
  | [] => ""
  | [a] =>
    String.mk [base64Digit (a / 4), base64Digit (a % 4 * 16), '=', '=']
  | [a, b] =>
    String.mk [base64Digit (a / 4), base64Digit (a % 4 * 16 + b / 16),
      base64Digit (b % 16 * 4), '=']
  | a :: b :: c :: rest =>
    String.mk [base64Digit (a / 4), base64Digit (a % 4 * 16 + b / 16),
      base64Digit (b % 16 * 4 + c / 64), base64Digit (c % 64)] ++ base64Encode rest

/-! ### Dynamic member access

The scripts cast parsed JSON to TypeScript interfaces, which erases at
runtime: every field read is a dynamic property access.  JsVal is a value or
undefined; reading a member of undefined or null throws a TypeError, reading
an absent member of an object yields undefined, and reading a named member of
a primitive or an array yields undefined (the code never reads a built-in
property such as length). -/

/-- A JavaScript expression value: a JValue, or undefined (none). -/
abbrev JsVal := Option JValue

/-- The errors the scripts can throw.  syntaxError is a JSON.parse failure
(the ParseError of the spec), typeError a member access on undefined or null,
remoteUpload the thrown Error for a non-ok fetch response (the
RemoteUploadError of the spec: status code, status text, parsed body), and
missingIdentifier the thrown Error "No document ID found in upload response"
(the MissingIdentifierError of the spec). -/
inductive JsError where
  | syntaxError (msg : String)
  | typeError (msg : String)
  | remoteUpload (status : Nat) (statusText : String) (body : JValue)
  | missingIdentifier

/-- The message JSON.parse failures are modelled with. -/
def jsonParseErrMsg : String := "Unexpected token in JSON"

/-- Property read o.k on a JavaScript value. -/
def getProp (v : JsVal) (key : String) : Except JsError JsVal :=
  match v with
  | none => .error (.typeError ("Cannot read properties of undefined (reading " ++ key ++ ")"))
  | some .jnull => .error (.typeError ("Cannot read properties of null (reading " ++ key ++ ")"))
  | some (.jobj fields) => .ok (jlookup fields key)
  | some _ => .ok none

/-- Index read o[i] on a JavaScript value: an out-of-range array or string
index yields undefined, and objects are looked up by the numeric key's string
form. -/
def getIndex (v : JsVal) (i : Nat) : Except JsError JsVal :=
  match v with
  | none => .error (.typeError ("Cannot read properties of undefined (reading " ++ toString i ++ ")"))
  | some .jnull => .error (.typeError ("Cannot read properties of null (reading " ++ toString i ++ ")"))
  | some (.jarr xs) => .ok (xs.get? i)
  | some (.jstr s) => .ok ((s.toList.get? i).map fun c => .jstr (String.mk [c]))
  | some (.jobj fields) => .ok (jlookup fields (toString i))
  | some _ => .ok none

/-! ### The data model of the input file

The TypeScript interfaces of src/unnamed/part_000 (InvoicePayload, Client,
Reservation, Hotel) and src/unnamed/part_001 (whose Client carries the
reservation fields inline).  Numeric fields are integers, as everywhere in
this program. -/

structure Hotel where
  id : Int
  name : String
  location : String
  imageName : String
  checkInTime : String
  checkOutTime : String
  rating : Int
  conciergeUrl : String

structure Reservation where
  id : Int
  hotel : Hotel
  confirmationNumber : Int
  guests : Int
  creditPrefix : Int
  creditSuffix : Int
  points : Int
  checkInDate : String
  checkOutDate : String
  checkedIn : Bool
  guestName : String
  guestEmail : String
  guestClientId : String

/-- The JSON value a Hotel is serialized as in the input file. -/
def Hotel.toJValue (h : Hotel) : JValue :=
  .jobj [("id", .jnum h.id), ("name", .jstr h.name), ("location", .jstr h.location),
    ("imageName", .jstr h.imageName), ("checkInTime", .jstr h.checkInTime),
    ("checkOutTime", .jstr h.checkOutTime), ("rating", .jnum h.rating),
    ("conciergeUrl", .jstr h.conciergeUrl)]

/-- The JSON value a Reservation is serialized as in the input file, with the
members in interface order. -/
def Reservation.toJValue : Reservation → JValue
  | ⟨i, h, cn, g, cp, cs, p, ci, co, chk, gn, ge, gc⟩ =>
    .jobj [("id", .jnum i), ("hotel", Hotel.toJValue h), ("confirmationNumber", .jnum cn),
      ("guests", .jnum g), ("creditPrefix", .jnum cp), ("creditSuffix", .jnum cs),
      ("points", .jnum p), ("checkInDate", .jstr ci), ("checkOutDate", .jstr co),
      ("checkedIn", .jbool chk), ("guestName", .jstr gn), ("guestEmail", .jstr ge),
      ("guestClientId", .jstr gc)]

/-! ### The request body -/

/-- One entry of the clientAccessRights list of the request body. -/
structure AccessRight where
  clientId : JsVal
  right : String

/-- One entry of the fixed metadata list of the request body. -/
structure MetaEntry where
  name : String
  type : String
  value : JsVal
  isReadOnly : Bool

/-- The single document descriptor of the request body.  fileContent is the
JavaScript value placed in the literal: a string in the two variants that
await the read, and a pending Promise in src/src/index.ts, which omits the
await. -/
structure DocumentBody where
  clientAccessRights : List AccessRight
  fileName : String
  name : String
  applicationId : String
  publicAccessRight : String
  metadata : List MetaEntry
  fileContent : JValue

/-- The request body: a single-document list. -/
structure RequestBody where
  documents : List DocumentBody

/-- The endpoint's reply: status code, status text, raw body text.  ok is
status in [200, 300), as for a fetch Response. -/
structure HttpResponse where
  status : Nat
  statusText : String
  bodyText : String

/-- The environment of one run: the input resource's text, the document
resource's bytes, the applicationId parameter, and the endpoint's reply. -/
structure Env where
  inputText : String
  docBytes : List Nat
  applicationId : String
  response : HttpResponse

/-- The externally observable effects of a run: the two resource reads and
the HTTP POST carrying the request body. -/
inductive Event where
  | readInput
  | readDocument
  | httpPost (body : RequestBody)

/-- Whether an event is the HTTP POST. -/
def Event.isHttpPost : Event → Bool
  | .httpPost _ => true
  | _ => false

/-- The request-body construction of uploadDocument, which is textually
identical in src/unnamed/part_000 (lines 77-137) and src/unnamed/part_001
(lines 63-123): the member reads in source evaluation order
(data.guestClientId, data.hotel, then .name on it, data.checkInDate,
data.checkOutDate, data.guests, data.points, data.confirmationNumber),
assembled into the literal with the fixed seven-entry metadata list.  Only
the data.hotel.name chain can throw, when data.hotel is undefined or null (or
data itself is undefined or null, which already fails at the first read). -/
def buildBody (appId : String) (b64 : String) (data : JsVal) : Except JsError RequestBody :=
  match getProp data "guestClientId" with
  | .error e => .error e
  | .ok gcid =>
  match getProp data "hotel" with
  | .error e => .error e
  | .ok hotel =>
  match getProp hotel "name" with
  | .error e => .error e
  | .ok hname =>
  match getProp data "checkInDate" with
  | .error e => .error e
  | .ok ci =>
  match getProp data "checkOutDate" with
  | .error e => .error e
  | .ok co =>
  match getProp data "guests" with
  | .error e => .error e
  | .ok gu =>
  match getProp data "points" with
  | .error e => .error e
  | .ok pts =>
  match getProp data "confirmationNumber" with
  | .error e => .error e
  | .ok cn =>
  .ok { documents := [
    { clientAccessRights := [{ clientId := gcid, right := "Delete" }],
      fileName := "invoice.pdf",
      name := "Invoice",
      applicationId := appId,
      publicAccessRight := "None",
      metadata := [
        { name := "type", type := "Text", value := some (.jstr "reward_activity"), isReadOnly := true },
        { name := "hotelName", type := "Text", value := hname, isReadOnly := true },
        { name := "checkIn", type := "Text", value := ci, isReadOnly := true },
        { name := "checkOut", type := "Text", value := co, isReadOnly := true },
        { name := "guests", type := "Number", value := gu, isReadOnly := true },
        { name := "points", type := "Number", value := pts, isReadOnly := true },
        { name := "reservationNumber", type := "Number", value := cn, isReadOnly := true }
      ],
      fileContent := .jstr b64 } ] }

namespace Part000

/-! The identifier-returning variant, src/unnamed/part_000. -/

/-- Response handling of uploadDocument (lines 150-159): parse the body as
JSON (response.json()), throw the remote error when the status is not ok, and
otherwise return JSON.parse(json) - a second JSON.parse applied to the value
the first parse already produced, which coerces that value to a string
first. -/
def handleResponse (r : HttpResponse) : Except JsError JValue :=
  match jsonParse r.bodyText with
  | none => .error (.syntaxError jsonParseErrMsg)
  | some json =>
    if 200 ≤ r.status ∧ r.status < 300 then
      match jsonParse (jsToString json) with
      | none => .error (.syntaxError jsonParseErrMsg)
      | some v => .ok v
    else
      .error (.remoteUpload r.status r.statusText json)

/-- The forEach callback of getDocumentId (lines 163-167): reads
document.documentIndex, and when it is strictly equal to 0 reads and returns
document.id; otherwise it falls off the end, returning undefined.  The value
it returns is what Array.prototype.forEach throws away. -/
def docCallback (d : JValue) : Except JsError JsVal :=
  match getProp (some d) "documentIndex" with
  | .error e => .error e
  | .ok idx =>
    match idx with
    | some (.jnum n) =>
      if n = 0 then getProp (some d) "id" else .ok none
    | _ => .ok none

/-- Array.prototype.forEach: run the callback on each element in order for
its effects, propagating a thrown error, and discard every value the callback
returns. -/
def forEachDiscard (f : JValue → Except JsError JsVal) : List JValue → Except JsError Unit
  | [] => .ok ()
  | x :: rest =>
    match f x with
    | .error e => .error e
    | .ok _ => forEachDiscard f rest

/-- getDocumentId (lines 162-169): iterate response.documents with forEach,
whose callback's returned value is discarded, then reach the unconditional
throw of "No document ID found in upload response".  Because forEach cannot
short-circuit with a value, the function can never return normally. -/
def getDocumentId (response : JValue) : Except JsError JsVal :=
  match getProp (some response) "documents" with
  | .error e => .error e
  | .ok none => .error (.typeError "Cannot read properties of undefined (reading forEach)")
  | .ok (some (.jarr docs)) =>
    match forEachDiscard docCallback docs with
    | .error e => .error e
    | .ok _ => .error .missingIdentifier
  | .ok (some _) => .error (.typeError "forEach is not a function")

/-- uploadDocument (lines 73-160): build the request body (reading the
document resource as base64 while evaluating the literal), POST it, and
handle the response.  Returns the events it performs with its result; when
the body construction throws, neither read nor POST happens. -/
def uploadDocument (env : Env) (data : JsVal) : List Event × Except JsError JValue :=
  match buildBody env.applicationId (base64Encode env.docBytes) data with
  | .error e => ([], .error e)
  | .ok body => ([.readDocument, .httpPost body], handleResponse env.response)

/-- execute (lines 53-59): read and parse the input file, take
input.Clients[0].Reservation, upload, and extract the document id. -/
def execute (env : Env) : List Event × Except JsError JsVal :=
  match jsonParse env.inputText with
  | none => ([.readInput], .error (.syntaxError jsonParseErrMsg))
  | some input =>
    match getProp (some input) "Clients" with
    | .error e => ([.readInput], .error e)
    | .ok clients =>
      match getIndex clients 0 with
      | .error e => ([.readInput], .error e)
      | .ok c0 =>
        match getProp c0 "Reservation" with
        | .error e => ([.readInput], .error e)
        | .ok res =>
          match uploadDocument env res with
          | (tr, .error e) => (.readInput :: tr, .error e)
          | (tr, .ok response) => (.readInput :: tr, getDocumentId response)

end Part000

/-- Response handling of the two void variants (src/unnamed/part_001 lines
136-143 and src/src/index.ts lines 140-147): parse the body as JSON, throw
the remote error when the status is not ok, and otherwise fall off the end of
the function. -/
def handleResponseVoid (r : HttpResponse) : Except JsError Unit :=
  match jsonParse r.bodyText with
  | none => .error (.syntaxError jsonParseErrMsg)
  | some json =>
    if 200 ≤ r.status ∧ r.status < 300 then .ok ()
    else .error (.remoteUpload r.status r.statusText json)

namespace Part001

/-! The void variant src/unnamed/part_001, whose Client record carries the
reservation fields inline; its uploadDocument body literal is textually
identical to part_000's. -/

/-- uploadDocument (lines 62-144). -/
def uploadDocument (env : Env) (data : JsVal) : List Event × Except JsError Unit :=
  match buildBody env.applicationId (base64Encode env.docBytes) data with
  | .error e => ([], .error e)
  | .ok body => ([.readDocument, .httpPost body], handleResponseVoid env.response)

/-- execute (lines 45-48): read and parse the input file, take
input.Clients[0], upload. -/
def execute (env : Env) : List Event × Except JsError Unit :=
  match jsonParse env.inputText with
  | none => ([.readInput], .error (.syntaxError jsonParseErrMsg))
  | some input =>
    match getProp (some input) "Clients" with
    | .error e => ([.readInput], .error e)
    | .ok clients =>
      match getIndex clients 0 with
      | .error e => ([.readInput], .error e)
      | .ok c0 =>
        match uploadDocument env c0 with
        | (tr, out) => (.readInput :: tr, out)

end Part001

namespace IndexTs

/-! The void variant src/src/index.ts: execute reads the raw input text and
uploadDocument parses it, reads the flat fields hotelName and
reservationNumber, and places the unawaited readDocumentAsBase64 Promise in
fileContent. -/

/-- The body construction of uploadDocument (lines 61-121): member reads in
source order on the parsed input (guestClientId, hotelName, checkInDate,
checkOutDate, guests, points, reservationNumber), fileName and name the
literal "string", and fileContent the pending Promise of the base64 read
(line 118 omits the await), which JSON.stringify would serialize as an empty
object rather than the base64 text. -/
def buildBody (appId : String) (b64 : String) (data : JsVal) : Except JsError RequestBody :=
  match getProp data "guestClientId" with
  | .error e => .error e
  | .ok gcid =>
  match getProp data "hotelName" with
  | .error e => .error e
  | .ok hname =>
  match getProp data "checkInDate" with
  | .error e => .error e
  | .ok ci =>
  match getProp data "checkOutDate" with
  | .error e => .error e
  | .ok co =>
  match getProp data "guests" with
  | .error e => .error e
  | .ok gu =>
  match getProp data "points" with
  | .error e => .error e
  | .ok pts =>
  match getProp data "reservationNumber" with
  | .error e => .error e
  | .ok rn =>
  .ok { documents := [
    { clientAccessRights := [{ clientId := gcid, right := "Delete" }],
      fileName := "string",
      name := "string",
      applicationId := appId,
      publicAccessRight := "None",
      metadata := [
        { name := "type", type := "Text", value := some (.jstr "reward_activity"), isReadOnly := true },
        { name := "hotelName", type := "Text", value := hname, isReadOnly := true },
        { name := "checkIn", type := "Text", value := ci, isReadOnly := true },
        { name := "checkOut", type := "Text", value := co, isReadOnly := true },
        { name := "guests", type := "Number", value := gu, isReadOnly := true },
        { name := "points", type := "Number", value := pts, isReadOnly := true },
        { name := "reservationNumber", type := "Number", value := rn, isReadOnly := true }
      ],
      fileContent := .jpromise (.jstr b64) } ] }

/-- uploadDocument (lines 58-147): JSON.parse the raw input text, build the
body (the document read is still initiated while evaluating the literal,
though its Promise is never awaited), POST, and check the status. -/
def uploadDocument (env : Env) (data : String) : List Event × Except JsError Unit :=
  match jsonParse data with
  | none => ([], .error (.syntaxError jsonParseErrMsg))
  | some jsonData =>
    match buildBody env.applicationId (base64Encode env.docBytes) (some jsonData) with
    | .error e => ([], .error e)
    | .ok body => ([.readDocument, .httpPost body], handleResponseVoid env.response)

/-- execute (lines 43-46): read the input file and upload. -/
def execute (env : Env) : List Event × Except JsError Unit :=
  match uploadDocument env env.inputText with
  | (tr, out) => (.readInput :: tr, out)

end IndexTs

/-! ### Call-count and mutation instrumentation

None of the three source files declares a module-level mutable binding: every
value uploadDocument consumes is a parameter or a local const.  The two
instrumented forms below make that visible for the determinism and frame
properties: one tags the construction with the index of the call performing
it, the other threads the record's field store through every member read the
construction performs. -/

/-- The request-body construction as performed by the call-indexed invocation
of the script: no source state survives between invocations, so the call
index reaches no part of the computation. -/
def buildBodyAtCall (_callIdx : Nat) (appId : String) (b64 : String) (data : JsVal) :
    Except JsError RequestBody :=
  buildBody appId b64 data

/-- A JavaScript member read on the record's field store: it returns the
store it leaves behind together with the value read.  A read writes
nothing. -/
def readField (st : List (String × JValue)) (key : String) :
    List (String × JValue) × JsVal :=
  (st, jlookup st key)

/-- buildBody with the record's field store threaded through each of the
member reads the source performs, in source order, returning the store the
construction leaves behind alongside its result. -/
def buildBodySt (appId : String) (b64 : String) (st : List (String × JValue)) :
    List (String × JValue) × Except JsError RequestBody :=
  match readField st "guestClientId" with
  | (st1, gcid) =>
  match readField st1 "hotel" with
  | (st2, hotel) =>
  match getProp hotel "name" with
  | .error e => (st2, .error e)
  | .ok hname =>
  match readField st2 "checkInDate" with
  | (st3, ci) =>
  match readField st3 "checkOutDate" with
  | (st4, co) =>
  match readField st4 "guests" with
  | (st5, gu) =>
  match readField st5 "points" with
  | (st6, pts) =>
  match readField st6 "confirmationNumber" with
  | (st7, cn) =>
  (st7, .ok { documents := [
    { clientAccessRights := [{ clientId := gcid, right := "Delete" }],
      fileName := "invoice.pdf",
      name := "Invoice",
      applicationId := appId,
      publicAccessRight := "None",
      metadata := [
        { name := "type", type := "Text", value := some (.jstr "reward_activity"), isReadOnly := true },
        { name := "hotelName", type := "Text", value := hname, isReadOnly := true },
        { name := "checkIn", type := "Text", value := ci, isReadOnly := true },
        { name := "checkOut", type := "Text", value := co, isReadOnly := true },
        { name := "guests", type := "Number", value := gu, isReadOnly := true },
        { name := "points", type := "Number", value := pts, isReadOnly := true },
        { name := "reservationNumber", type := "Number", value := cn, isReadOnly := true }
      ],
      fileContent := .jstr b64 } ] })

/-! ### Concrete run data for the evaluations and witnesses -/

/-- A concrete hotel. -/
def sampleHotel : Hotel :=
  ⟨2, "Grand Hotel", "L", "img", "15:00", "11:00", 5, "u"⟩

/-- A concrete valid reservation record. -/
def sampleReservation : Reservation :=
  ⟨1, sampleHotel, 1234, 2, 11, 22, 150, "2023-05-01", "2023-05-03", false,
    "G", "g@x", "c-9"⟩

/-- Input file text holding sampleReservation under Clients[0].Reservation,
with the members in interface order. -/
def sampleInputText : String :=
  "\x7b\"Clients\":[\x7b\"Reservation\":\x7b\"id\":1,\"hotel\":\x7b\"id\":2,\"name\":\"Grand Hotel\",\"location\":\"L\",\"imageName\":\"img\",\"checkInTime\":\"15:00\",\"checkOutTime\":\"11:00\",\"rating\":5,\"conciergeUrl\":\"u\"\x7d,\"confirmationNumber\":1234,\"guests\":2,\"creditPrefix\":11,\"creditSuffix\":22,\"points\":150,\"checkInDate\":\"2023-05-01\",\"checkOutDate\":\"2023-05-03\",\"checkedIn\":false,\"guestName\":\"G\",\"guestEmail\":\"g@x\",\"guestClientId\":\"c-9\"\x7d\x7d]\x7d"

/-- A well-formed success reply: HTTP 200 whose documents list has the entry
with documentIndex 0 and id 7. -/
def goodReply : HttpResponse :=
  ⟨200, "OK", "\x7b\"documents\":[\x7b\"documentIndex\":0,\"id\":7\x7d]\x7d"⟩

/-- A success reply whose documents list has no entry with documentIndex 0. -/
def noIndexZeroReply : HttpResponse :=
  ⟨200, "OK", "\x7b\"documents\":[\x7b\"documentIndex\":1,\"id\":5\x7d]\x7d"⟩

/-- A failure reply: HTTP 404 with a JSON body. -/
def notFoundReply : HttpResponse := ⟨404, "Not Found", "\x7b\x7d"⟩

/-- The spec's example document: ten bytes. -/
def tenBytes : List Nat := [0, 1, 2, 3, 4, 5, 6, 7, 8, 9]

/-- A run with valid input and the well-formed success reply. -/
def goodEnv : Env := ⟨sampleInputText, tenBytes, "app-1", goodReply⟩

/-- A run with valid input and the success reply lacking index 0. -/
def noIndexZeroEnv : Env := ⟨sampleInputText, tenBytes, "app-1", noIndexZeroReply⟩

/-- A run with valid input and the 404 reply. -/
def notFoundEnv : Env := ⟨sampleInputText, tenBytes, "app-1", notFoundReply⟩

/-- A run whose input file is not valid JSON. -/
def malformedEnv : Env := ⟨"\x7b", tenBytes, "app-1", goodReply⟩

/-- A run whose input parses to an object with an empty Clients list. -/
def emptyClientsEnv : Env := ⟨"\x7b\"Clients\":[]\x7d", tenBytes, "app-1", goodReply⟩

/-! ### Theorems -/

set_option maxRecDepth 40000

/-- The forEach-based scan of part_000's getDocumentId can never return
normally: Array.prototype.forEach discards the value its callback returns, so
every control path of getDocumentId ends in a thrown error, whatever the
response value holds. -/
theorem getDocumentId_never_returns (response : JValue) (v : JsVal) :
    Part000.getDocumentId response ≠ .ok v := by
  unfold Part000.getDocumentId
  split
  · exact fun h => nomatch h
  · exact fun h => nomatch h
  · split
    · exact fun h => nomatch h
    · exact fun h => nomatch h
  · exact fun h => nomatch h

/-- The part_000 and part_001 body construction places the awaited base64
text of the document bytes in fileContent, for every reservation record. -/
theorem buildBody_fileContent_is_base64 (r : Reservation) (appId : String) (bytes : List Nat) :
    (buildBody appId (base64Encode bytes) (some ( Reservation.toJValue r))).map
      (fun b => b.documents.map fun d => d.fileContent) =
    .ok [.jstr (base64Encode bytes)] := rfl

/-- C1: for the valid sample reservation and an HTTP 200 reply whose
well-formed body carries the entry with documentIndex 0 and id 7, the
identifier-returning execute of part_000 does not complete: it raises a JSON
parse error (re-parsing the already-parsed body), and even the scan itself,
handed the parsed documents list directly, throws instead of returning 7 -
its forEach discards the callback's returned value. -/
theorem c1_success_reply_run_raises_instead_of_returning_id :
    (Part000.execute goodEnv).2 = .error (.syntaxError jsonParseErrMsg) ∧
    Part000.getDocumentId
      (.jobj [("documents", .jarr [.jobj [("documentIndex", .jnum 0), ("id", .jnum 7)]])]) =
      .error .missingIdentifier := ⟨rfl, rfl⟩

/-- C2: for every run whose input file holds a reservation record and whose
endpoint reply has a non-success status and a JSON body, the
identifier-returning execute fails with the remote-upload error carrying the
reply's status code, its status text, and the parsed body; in particular the
thrown status code equals the reply's status code. -/
theorem c2_non_success_status_fails_with_remote_upload_error (env : Env)
    (r : Reservation) (j : JValue)
    (hin : jsonParse env.inputText =
      some (.jobj [("Clients", .jarr [.jobj [("Reservation", Reservation.toJValue r)]])]))
    (hbody : jsonParse env.response.bodyText = some j)
    (hst : env.response.status < 200 ∨ 300 ≤ env.response.status) :
    (Part000.execute env).2 =
      .error (.remoteUpload env.response.status env.response.statusText j) := by
  have hresp : Part000.handleResponse env.response =
      .error (.remoteUpload env.response.status env.response.statusText j) := by
    unfold Part000.handleResponse
    simp only [hbody]
    rw [if_neg (by rcases hst with h | h <;> omega)]
  obtain ⟨i, h, cn, g, cp, cs, p, ci, co, chk, gn, ge, gc⟩ := r
  obtain ⟨hi, hn, hl, him, hci, hco, hr, hcu⟩ := h
  simp only [Part000.execute, Part000.uploadDocument, buildBody, getProp, jlookup,
    getIndex, Reservation.toJValue, Hotel.toJValue, hin, hresp]
  rfl

/-- C2 witness: the sample input with the 404 reply fails with the
remote-upload error carrying 404, "Not Found" and the parsed body. -/
theorem c2_non_success_status_fails_with_remote_upload_error_witness :
    (Part000.execute notFoundEnv).2 = .error (.remoteUpload 404 "Not Found" (.jobj [])) :=
  c2_non_success_status_fails_with_remote_upload_error notFoundEnv sampleReservation
    (.jobj []) rfl rfl (.inr (by decide))

/-- C3: for the valid sample reservation and an HTTP 200 reply whose
documents list has no entry with documentIndex 0, the identifier-returning
execute fails - but with the JSON parse error raised by re-parsing the
already-parsed body, not with the missing-identifier error; the scan itself,
handed the parsed documents list directly, does throw the missing-identifier
error. -/
theorem c3_no_index_zero_reply_run_raises_parse_error_not_missing_identifier :
    (Part000.execute noIndexZeroEnv).2 = .error (.syntaxError jsonParseErrMsg) ∧
    (Part000.execute noIndexZeroEnv).2 ≠ .error .missingIdentifier ∧
    Part000.getDocumentId
      (.jobj [("documents", .jarr [.jobj [("documentIndex", .jnum 1), ("id", .jnum 5)]])]) =
      .error .missingIdentifier := by
  refine ⟨rfl, ?_, rfl⟩
  intro h
  rw [show (Part000.execute noIndexZeroEnv).2 =
    Except.error (JsError.syntaxError jsonParseErrMsg) from rfl] at h
  exact nomatch h

/-- C4: for every run whose input file text is not valid JSON, all three
variants of execute stop with the parse error after the single input read:
the trace holds no HTTP POST (and no document read either), so the malformed
input never reaches the network step. -/
theorem c4_malformed_input_parse_error_before_http (env : Env)
    (hbad : jsonParse env.inputText = none) :
    Part000.execute env = ([.readInput], .error (.syntaxError jsonParseErrMsg)) ∧
    Part001.execute env = ([.readInput], .error (.syntaxError jsonParseErrMsg)) ∧
    IndexTs.execute env = ([.readInput], .error (.syntaxError jsonParseErrMsg)) ∧
    ((Part000.execute env).1.all fun e => !e.isHttpPost) = true ∧
    ((Part001.execute env).1.all fun e => !e.isHttpPost) = true ∧
    ((IndexTs.execute env).1.all fun e => !e.isHttpPost) = true := by
  have h0 : Part000.execute env = ([.readInput], .error (.syntaxError jsonParseErrMsg)) := by
    unfold Part000.execute
    rw [hbad]
  have h1 : Part001.execute env = ([.readInput], .error (.syntaxError jsonParseErrMsg)) := by
    unfold Part001.execute
    rw [hbad]
  have h2 : IndexTs.execute env = ([.readInput], .error (.syntaxError jsonParseErrMsg)) := by
    unfold IndexTs.execute IndexTs.uploadDocument
    rw [hbad]
  refine ⟨h0, h1, h2, ?_, ?_, ?_⟩
  · rw [h0]
    rfl
  · rw [h1]
    rfl
  · rw [h2]
    rfl

/-- C4 witness: the run whose input file text is a lone opening brace. -/
theorem c4_malformed_input_parse_error_before_http_witness :
    Part000.execute malformedEnv = ([.readInput], .error (.syntaxError jsonParseErrMsg)) :=
  (c4_malformed_input_parse_error_before_http malformedEnv rfl).1

/-- C5: for every reservation record, the constructed request body is the
single-document list whose metadata is exactly the seven entries in the fixed
order type, hotelName, checkIn, checkOut, guests, points, reservationNumber,
with type tag Text on the first four and Number on the last three, isReadOnly
true on each, hotelName drawn from the hotel's name and reservationNumber
from the record's confirmation number. -/
theorem c5_metadata_fixed_schema (r : Reservation) (appId b64 : String) :
    buildBody appId b64 (some ( Reservation.toJValue r)) = .ok { documents := [
      { clientAccessRights := [{ clientId := some (.jstr r.guestClientId), right := "Delete" }],
        fileName := "invoice.pdf",
        name := "Invoice",
        applicationId := appId,
        publicAccessRight := "None",
        metadata := [
          { name := "type", type := "Text", value := some (.jstr "reward_activity"), isReadOnly := true },
          { name := "hotelName", type := "Text", value := some (.jstr r.hotel.name), isReadOnly := true },
          { name := "checkIn", type := "Text", value := some (.jstr r.checkInDate), isReadOnly := true },
          { name := "checkOut", type := "Text", value := some (.jstr r.checkOutDate), isReadOnly := true },
          { name := "guests", type := "Number", value := some (.jnum r.guests), isReadOnly := true },
          { name := "points", type := "Number", value := some (.jnum r.points), isReadOnly := true },
          { name := "reservationNumber", type := "Number", value := some (.jnum r.confirmationNumber), isReadOnly := true }
        ],
        fileContent := .jstr b64 } ] } := rfl

/-- The spec's example input object for the src/src/index.ts variant, whose
reads are flat fields on the parsed input. -/
def specExampleInput : JValue :=
  .jobj [("hotelName", .jstr "Grand Hotel"), ("checkInDate", .jstr "2023-05-01"),
    ("checkOutDate", .jstr "2023-05-03"), ("guests", .jnum 2), ("points", .jnum 150),
    ("confirmationNumber", .jnum 1234), ("guestClientId", .jstr "c-9")]

/-- C6: in src/src/index.ts the request body's fileContent is not the base64
text of the ten-byte document (which is AAECAwQFBgcICQ==) but the pending
Promise of that read - line 118 omits the await - while the part_000 and
part_001 construction does place the base64 text there for every record and
byte sequence. -/
theorem c6_index_ts_filecontent_is_pending_promise :
    (IndexTs.buildBody "app-1" (base64Encode tenBytes) (some specExampleInput)).map
      (fun b => b.documents.map fun d => d.fileContent) =
      .ok [.jpromise (.jstr "AAECAwQFBgcICQ==")] ∧
    base64Encode tenBytes = "AAECAwQFBgcICQ==" ∧
    JValue.jpromise (.jstr "AAECAwQFBgcICQ==") ≠ .jstr "AAECAwQFBgcICQ==" ∧
    ∀ (r : Reservation) (appId : String) (bytes : List Nat),
      (buildBody appId (base64Encode bytes) (some ( Reservation.toJValue r))).map
        (fun b => b.documents.map fun d => d.fileContent) =
      .ok [.jstr (base64Encode bytes)] :=
  ⟨rfl, rfl, (fun h => nomatch h), (fun _ _ _ => rfl)⟩

/-- C7: the constructed body (its metadata list included) is the same
whatever the index of the call performing the construction: no state of the
adapter survives between invocations, so two runs on the same record and
document text produce identical payloads. -/
theorem c7_body_construction_call_count_independent (k1 k2 : Nat)
    (appId b64 : String) (r : Reservation) :
    buildBodyAtCall k1 appId b64 (some ( Reservation.toJValue r)) =
      buildBodyAtCall k2 appId b64 (some ( Reservation.toJValue r)) ∧
    (buildBodyAtCall k1 appId b64 (some ( Reservation.toJValue r))).map
      (fun b => b.documents.map fun d => d.metadata) =
      (buildBodyAtCall k2 appId b64 (some ( Reservation.toJValue r))).map
      (fun b => b.documents.map fun d => d.metadata) := ⟨rfl, rfl⟩

/-- C8: the parsed record's field store passes through every member read the
body construction performs unchanged - the pipeline only reads the record -
and the threaded construction computes exactly the uninstrumented one, so no
stage of the pipeline mutates the parsed record. -/
theorem c8_record_store_unchanged_by_construction (appId b64 : String)
    (st : List (String × JValue)) :
    (buildBodySt appId b64 st).1 = st ∧
    (buildBodySt appId b64 st).2 = buildBody appId b64 (some (.jobj st)) := by
  constructor
  · simp only [buildBodySt, readField]
    split <;> rfl
  · simp only [buildBodySt, readField, buildBody, getProp]
    split <;> rfl

/-- C9: on a success-status reply whose body parses to the value j, the
part_000 response handling returns normally only when the string coercion of
j itself parses as JSON - it applies JSON.parse a second time to jsToString j
- and when j is an ordinary JSON object the coercion is the fixed object tag
string, which does not parse, so the success path raises the parse error
rather than returning the parsed response. -/
theorem c9_success_path_reparses_parsed_body (env : Env) (j : JValue)
    (fs : List (String × JValue))
    (hok1 : 200 ≤ env.response.status) (hok2 : env.response.status < 300)
    (hbody : jsonParse env.response.bodyText = some j) :
    (Part000.handleResponse env.response =
      (match jsonParse (jsToString j) with
       | none => .error (.syntaxError jsonParseErrMsg)
       | some v => .ok v)) ∧
    (j = .jobj fs → Part000.handleResponse env.response = .error (.syntaxError jsonParseErrMsg)) := by
  constructor
  · unfold Part000.handleResponse
    simp only [hbody]
    rw [if_pos ⟨hok1, hok2⟩]
  · intro hj
    subst hj
    unfold Part000.handleResponse
    simp only [hbody]
    rw [if_pos ⟨hok1, hok2⟩]
    rfl

/-- C9 witness: an HTTP 200 reply whose body is the empty JSON object makes
the success path of the response handling raise the parse error. -/
theorem c9_success_path_reparses_parsed_body_witness :
    Part000.handleResponse (⟨200, "OK", "\x7b\x7d"⟩ : HttpResponse) =
      .error (.syntaxError jsonParseErrMsg) :=
  (c9_success_path_reparses_parsed_body ⟨"", [], "", ⟨200, "OK", "\x7b\x7d"⟩⟩
    (.jobj []) [] (by decide) (by decide) rfl).2 rfl

/-- C10: for every run whose input parses to an object whose Clients list is
empty, the two variants that index the first client throw a TypeError -
Clients[0] is undefined and the next member read throws - after the single
input read; the trace holds no HTTP POST, and no guard intervenes. -/
theorem c10_empty_clients_type_error_before_http (env : Env)
    (fs : List (String × JValue))
    (hin : jsonParse env.inputText = some (.jobj fs))
    (hcl : jlookup fs "Clients" = some (.jarr [])) :
    Part000.execute env = ([.readInput],
      .error (.typeError "Cannot read properties of undefined (reading Reservation)")) ∧
    Part001.execute env = ([.readInput],
      .error (.typeError "Cannot read properties of undefined (reading guestClientId)")) ∧
    ((Part000.execute env).1.all fun e => !e.isHttpPost) = true ∧
    ((Part001.execute env).1.all fun e => !e.isHttpPost) = true := by
  have h0 : Part000.execute env = ([.readInput],
      .error (.typeError "Cannot read properties of undefined (reading Reservation)")) := by
    unfold Part000.execute
    rw [hin]
    simp only [getProp, hcl]
    rfl
  have h1 : Part001.execute env = ([.readInput],
      .error (.typeError "Cannot read properties of undefined (reading guestClientId)")) := by
    unfold Part001.execute
    rw [hin]
    simp only [getProp, hcl]
    rfl
  refine ⟨h0, h1, ?_, ?_⟩
  · rw [h0]
    rfl
  · rw [h1]
    rfl

/-- C10 witness: the run whose input file text parses to an object holding an
empty Clients list. -/
theorem c10_empty_clients_type_error_before_http_witness :
    Part000.execute emptyClientsEnv = ([.readInput],
      .error (.typeError "Cannot read properties of undefined (reading Reservation)")) :=
  (c10_empty_clients_type_error_before_http emptyClientsEnv [("Clients", .jarr [])] rfl rfl).1
